import Mathlib

/-!
Shallow embedding of the screencap repository's capture core
(ScreenCapDX11.cpp/.h, ScreenCapGDI.cpp/.h, ScreenCap.h) and proofs
about the claims of its specification.

OS/driver behaviour (DXGI calls, GDI calls) is modelled as oracle
inputs supplied per call; the embedded functions mirror the control
flow of the C++ source.
-/

/-- DXGI_FORMAT_B8G8R8A8_UNORM numeric value from dxgiformat.h. -/
def DXGI_FORMAT_B8G8R8A8_UNORM : Nat := 87
/-- DXGI_FORMAT_B8G8R8X8_UNORM numeric value from dxgiformat.h. -/
def DXGI_FORMAT_B8G8R8X8_UNORM : Nat := 88
/-- DXGI_FORMAT_B8G8R8A8_TYPELESS numeric value from dxgiformat.h. -/
def DXGI_FORMAT_B8G8R8A8_TYPELESS : Nat := 90
/-- DXGI_FORMAT_B8G8R8A8_UNORM_SRGB numeric value from dxgiformat.h. -/
def DXGI_FORMAT_B8G8R8A8_UNORM_SRGB : Nat := 91
/-- DXGI_FORMAT_B8G8R8X8_TYPELESS numeric value from dxgiformat.h. -/
def DXGI_FORMAT_B8G8R8X8_TYPELESS : Nat := 92
/-- DXGI_FORMAT_B8G8R8X8_UNORM_SRGB numeric value from dxgiformat.h. -/
def DXGI_FORMAT_B8G8R8X8_UNORM_SRGB : Nat := 93

/-- Embeds the static helper IsFormat32bit of ScreenCapDX11.cpp lines 55-66:
returns false unless the format is one of the six 32-bit BGRA/BGRX variants. -/
def IsFormat32bit (fmt : Nat) : Bool :=
  if fmt ≠ DXGI_FORMAT_B8G8R8A8_UNORM ∧
     fmt ≠ DXGI_FORMAT_B8G8R8X8_UNORM ∧
     fmt ≠ DXGI_FORMAT_B8G8R8A8_TYPELESS ∧
     fmt ≠ DXGI_FORMAT_B8G8R8A8_UNORM_SRGB ∧
     fmt ≠ DXGI_FORMAT_B8G8R8X8_TYPELESS ∧
     fmt ≠ DXGI_FORMAT_B8G8R8X8_UNORM_SRGB then
    false
  else
    true

/-- Per-attempt outcome of the OS call IDXGIOutputDuplication::AcquireNextFrame
as classified by the retry loop in ScreenCapDX11.cpp lines 343-367. -/
inductive AcquireOutcome where
  /-- FAILED(hr): timed out (DXGI_ERROR_WAIT_TIMEOUT) or driver error. -/
  | failed : AcquireOutcome
  /-- SUCCEEDED(hr) but finfo.LastPresentTime.QuadPart == 0 (frame still
  being composited). -/
  | zeroPresentTime : AcquireOutcome
  /-- SUCCEEDED(hr) but desktopResource was not populated. -/
  | noResource : AcquireOutcome
  /-- SUCCEEDED(hr) with a populated resource and nonzero present marker. -/
  | gotResource : AcquireOutcome
deriving DecidableEq

/-- True on the two outcomes that make the retry loop release the frame and
try again (ScreenCapDX11.cpp lines 348-362). -/
def isRetryOutcome : AcquireOutcome → Bool
  | AcquireOutcome.zeroPresentTime => true
  | AcquireOutcome.noResource => true
  | _ => false

/-- State of the local variables of ScreenCaptureDX11::AcquireNextFrame when
its retry loop finishes. -/
structure LoopRes where
  /-- SUCCEEDED(hr) for the hr left by the last attempt. -/
  hrOk : Bool
  /-- desktopResource is non-null. -/
  res : Bool
  /-- Number of calls made to the OS AcquireNextFrame. -/
  used : Nat
  /-- Number of ReleaseFrame calls made inside the loop. -/
  rels : Nat
deriving DecidableEq

/-- Embeds the retry loop of ScreenCaptureDX11::AcquireNextFrame
(ScreenCapDX11.cpp lines 342-367).  `outs i` is the oracle outcome of the
i-th OS acquisition call; `fuel` counts the loop iterations left
(4 at entry); `hrOk`/`res` carry hr and desktopResource across iterations;
`used`/`rels` count OS calls and in-loop ReleaseFrame calls so far. -/
def acquireLoop (outs : Nat → AcquireOutcome) :
    Nat → Bool → Bool → Nat → Nat → LoopRes
  | 0, hrOk, res, used, rels => ⟨hrOk, res, used, rels⟩
  | fuel + 1, _, res, used, rels =>
    match outs used with
    | AcquireOutcome.zeroPresentTime =>
        acquireLoop outs fuel true false (used + 1) (rels + 1)
    | AcquireOutcome.noResource =>
        acquireLoop outs fuel true false (used + 1) (rels + 1)
    | AcquireOutcome.failed => ⟨false, res, used + 1, rels⟩
    | AcquireOutcome.gotResource => ⟨true, true, used + 1, rels⟩

/-- Result of ScreenCaptureDX11::AcquireNextFrame. -/
structure AcqRes where
  /-- Return value of the function. -/
  success : Bool
  /-- acquiredDesktopImage was populated (QueryInterface succeeded). -/
  acquired : Bool
  /-- Number of OS acquisition attempts performed. -/
  attempts : Nat
  /-- Number of ReleaseFrame calls made inside the retry loop. -/
  relsInLoop : Nat
deriving DecidableEq

/-- Embeds ScreenCaptureDX11::AcquireNextFrame (ScreenCapDX11.cpp lines
332-387).  `qiOk` is the oracle for the QueryInterface call that extracts
the ID3D11Texture2D from the acquired resource. -/
def AcquireNextFrameDX11 (outs : Nat → AcquireOutcome) (qiOk : Bool) : AcqRes :=
  let l := acquireLoop outs 4 false false 0 0
  if l.hrOk = false ∨ l.res = false then ⟨false, false, l.used, l.rels⟩
  else if qiOk then ⟨true, true, l.used, l.rels⟩
  else ⟨false, false, l.used, l.rels⟩

/-- Member state of a ScreenCaptureDX11 object (ScreenCapDX11.h lines
103-116).  A Bool field is true when the corresponding CComPtr handle is
non-null. -/
structure DX11State where
  device : Bool
  deviceContext : Bool
  stagingTexture : Bool
  outputDuplication : Bool
  frameBuffer : List Nat
  frameWidth : Nat
  frameHeight : Nat
  frameDepth : Nat
  frameStride : Nat
deriving DecidableEq

/-- A freshly constructed ScreenCaptureDX11 object: all handles null, empty
buffer, zero metadata. -/
def dx11InitState : DX11State :=
  ⟨false, false, false, false, [], 0, 0, 0, 0⟩

/-- Accessor GetFrameWidth of ScreenCapDX11.h line 90. -/
def DX11GetFrameWidth (s : DX11State) : Nat := s.frameWidth
/-- Accessor GetFrameHeight of ScreenCapDX11.h line 91. -/
def DX11GetFrameHeight (s : DX11State) : Nat := s.frameHeight
/-- Accessor GetFrameDepth of ScreenCapDX11.h line 92. -/
def DX11GetFrameDepth (s : DX11State) : Nat := s.frameDepth
/-- Accessor GetFrameStride of ScreenCapDX11.h line 93. -/
def DX11GetFrameStride (s : DX11State) : Nat := s.frameStride

/-- Oracle inputs consumed by one ScreenCaptureDX11::CaptureFrame call. -/
structure DX11CapEnv where
  /-- Outcome of the i-th OS AcquireNextFrame attempt. -/
  outs : Nat → AcquireOutcome
  /-- QueryInterface to ID3D11Texture2D succeeds. -/
  qiOk : Bool
  /-- desc.ModeDesc.Format reported by GetDesc on the duplication session. -/
  descFormat : Nat
  /-- CreateTexture2D for the staging texture succeeds. -/
  stagingOk : Bool
  /-- Map on the staging texture succeeds. -/
  mapOk : Bool
  /-- desc.Width of the staging texture. -/
  texWidth : Nat
  /-- desc.Height of the staging texture. -/
  texHeight : Nat
  /-- res.RowPitch of the mapped staging texture. -/
  rowPitch : Nat
  /-- Byte i of the mapped staging-texture memory. -/
  mappedByte : Nat → Nat

/-- Embeds ScreenCaptureDX11::CopyStagingTextureToMemory (ScreenCapDX11.cpp
lines 219-253): on a successful Map it publishes width/height/stride/depth
from the mapped resource and copies stride*height bytes into the frame
buffer. -/
def CopyStagingTextureToMemory (s : DX11State) (e : DX11CapEnv) :
    DX11State × Bool :=
  if s.deviceContext = false then (s, false)
  else if e.mapOk = false then (s, false)
  else
    ({ s with
        frameWidth := e.texWidth
        frameHeight := e.texHeight
        frameStride := e.rowPitch
        frameDepth := 32
        frameBuffer := (List.range (e.rowPitch * e.texHeight)).map e.mappedByte },
      true)

/-- Observable result of one ScreenCaptureDX11::CaptureFrame call. -/
structure DX11CapRes where
  /-- Member state when the call returns. -/
  st : DX11State
  /-- Return value of CaptureFrame. -/
  ok : Bool
  /-- AcquireNextFrame returned true with a non-null acquired texture. -/
  acquiredFrame : Bool
  /-- ReleaseFrame was called on the duplication session in the CaptureFrame
  body (after the successful acquisition). -/
  releaseAfterAcquire : Bool
  /-- Number of OS acquisition attempts performed. -/
  attempts : Nat
  /-- CreateStagingTexture was called. -/
  stagingAttempted : Bool

/-- Embeds ScreenCaptureDX11::CaptureFrame (ScreenCapDX11.cpp lines
121-159), mirroring its branch structure: clear metadata, guard on
initialization, acquire, check format, create staging texture, copy to the
staging texture and then to memory, release the staging texture, release
the frame. -/
def CaptureFrameDX11 (s0 : DX11State) (e : DX11CapEnv) : DX11CapRes :=
  let s := { s0 with
              frameWidth := 0, frameHeight := 0
              frameStride := 0, frameDepth := 0 }
  if s.device = false ∨ s.deviceContext = false ∨ s.outputDuplication = false then
    ⟨s, false, false, false, 0, false⟩
  else
    let a := AcquireNextFrameDX11 e.outs e.qiOk
    if a.success = false ∨ a.acquired = false then
      ⟨s, false, false, false, a.attempts, false⟩
    else if IsFormat32bit e.descFormat = false then
      -- Source lines 140-144: returns false with no ReleaseFrame call.
      ⟨s, false, true, false, a.attempts, false⟩
    else if e.stagingOk = false then
      -- Source lines 148-152: ReleaseFrame then return false.
      ⟨s, false, true, true, a.attempts, true⟩
    else
      let s1 := { s with stagingTexture := true }
      let p := CopyStagingTextureToMemory s1 e
      let s2 := { p.1 with stagingTexture := false }
      ⟨s2, p.2, true, true, a.attempts, true⟩

/-- Embeds ScreenCaptureDX11::Startup (ScreenCapDX11.cpp lines 75-87).
The oracle pair says whether device creation (some driver/feature-level
combination) and duplication negotiation succeed.  On a device failure the
driver loop has released any partial device/context (lines 204-207); on a
duplication failure the device and context stay populated. -/
def StartupDX11 (s : DX11State) (deviceOk dupOk : Bool) : DX11State × Bool :=
  let s1 := { s with
                frameBuffer := [],
                frameWidth := 0, frameHeight := 0
                frameDepth := 0, frameStride := 0 }
  if deviceOk = false then
    -- Lines 204-207: the driver loop released any partial device/context.
    ({ s1 with device := false, deviceContext := false }, false)
  else
    let s2 := { s1 with device := true, deviceContext := true }
    if dupOk = false then (s2, false)
    else ({ s2 with outputDuplication := true }, true)

/-- The four COM handles a ScreenCaptureDX11 object can hold. -/
inductive DXHandle where
  | staging : DXHandle
  | duplication : DXHandle
  | device : DXHandle
  | context : DXHandle
deriving DecidableEq

/-- Embeds ScreenCaptureDX11::Shutdown (ScreenCapDX11.cpp lines 93-108).
Returns the shut-down state together with the sequence of Release calls
that were made, in source order: staging texture, duplication session,
device, device context; then the pixel buffer is cleared.  Frame metadata
is not touched by Shutdown. -/
def ShutdownDX11 (s : DX11State) : DX11State × List DXHandle :=
  ({ s with
      stagingTexture := false
      outputDuplication := false
      device := false
      deviceContext := false
      frameBuffer := [] },
   (if s.stagingTexture then [DXHandle.staging] else []) ++
   (if s.outputDuplication then [DXHandle.duplication] else []) ++
   (if s.device then [DXHandle.device] else []) ++
   (if s.deviceContext then [DXHandle.context] else []))

/-- Rounds a stride up to the next multiple of 4, embedding the loop
"while (m_stride % 4) ++m_stride;" of ScreenCapGDI.cpp lines 98-99. -/
def padTo4 (n : Nat) : Nat :=
  if n % 4 = 0 then n else n + (4 - n % 4)

/-- Member state of a ScreenCaptureGDI object (ScreenCapGDI.h lines 89-98).
A Bool field is true when the corresponding handle is non-null; dibBits is
the pixel array of the DIB section, indexed by scanline, or none when the
pointer is null. -/
structure GDIState where
  width : Nat
  height : Nat
  depth : Nat
  stride : Nat
  hdcMem : Bool
  dibSection : Bool
  dibOld : Bool
  dibBits : Option (Nat → List Nat)

/-- A freshly constructed ScreenCaptureGDI object. -/
def gdiInitState : GDIState :=
  ⟨0, 0, 0, 0, false, false, false, none⟩

/-- Accessor GetFrameWidth of ScreenCapGDI.h line 76. -/
def GDIGetFrameWidth (s : GDIState) : Nat := s.width
/-- Accessor GetFrameHeight of ScreenCapGDI.h line 77. -/
def GDIGetFrameHeight (s : GDIState) : Nat := s.height
/-- Accessor GetFrameDepth of ScreenCapGDI.h line 78. -/
def GDIGetFrameDepth (s : GDIState) : Nat := s.depth
/-- Accessor GetFrameStride of ScreenCapGDI.h line 79. -/
def GDIGetFrameStride (s : GDIState) : Nat := s.stride
/-- Accessor GetFrameBuffer of ScreenCapGDI.h line 85: returns m_dibBits,
whether or not it is null. -/
def GDIGetFrameBuffer (s : GDIState) : Option (Nat → List Nat) := s.dibBits

/-- Oracle inputs consumed by one ScreenCaptureGDI::Startup call. -/
structure GDIEnv where
  /-- GetSystemMetrics(SM_CXSCREEN). -/
  cxScreen : Nat
  /-- GetSystemMetrics(SM_CYSCREEN). -/
  cyScreen : Nat
  /-- GetSystemMetrics(SM_CMONITORS). -/
  monitors : Nat
  /-- GetSystemMetrics(SM_CXVIRTUALSCREEN). -/
  cxVirtual : Nat
  /-- GetSystemMetrics(SM_CYVIRTUALSCREEN). -/
  cyVirtual : Nat
  /-- CreateCompatibleDC succeeds. -/
  dcOk : Bool
  /-- CreateDIBSection succeeds with non-null section and bits. -/
  dibOk : Bool

/-- Embeds ScreenCaptureGDI::Startup (ScreenCapGDI.cpp lines 56-108):
determine dimensions from the system metrics, create the memory display
context, create the DIB section, compute depth and 4-byte-aligned stride,
select the DIB into the context.  On the two failure paths the width and
height fields keep the values already assigned. -/
def StartupGDI (s : GDIState) (e : GDIEnv) : GDIState × Bool :=
  let w := if e.monitors > 1 then e.cxVirtual else e.cxScreen
  let h := if e.monitors > 1 then e.cyVirtual else e.cyScreen
  let s1 := { s with width := w, height := h }
  let s2 := { s1 with hdcMem := e.dcOk }
  if e.dcOk = false then (s2, false)
  else if e.dibOk = false then
    -- Source lines 89-94: DeleteDC and null the memory DC, return false.
    ({ s2 with dibSection := false, dibBits := none, hdcMem := false }, false)
  else
    ({ s2 with
        dibSection := true
        dibBits := some fun _ => List.replicate (padTo4 (w * 32 / 8)) 0
        depth := 32
        stride := padTo4 (w * 32 / 8)
        dibOld := true }, true)

/-- Embeds ScreenCaptureGDI::Shutdown (ScreenCapGDI.cpp lines 114-128):
nulls the saved bitmap, the memory DC and the DIB section and zeroes the
metadata.  The source does not reset m_dibBits, so the dibBits field keeps
its previous value. -/
def ShutdownGDI (s : GDIState) : GDIState :=
  { s with
      dibOld := false
      hdcMem := false
      dibSection := false
      width := 0, height := 0, depth := 0, stride := 0 }

/-- Swaps the scanlines at indices i and j of a row-indexed pixel array,
the effect of the three memcpy calls of ScreenCapGDI.cpp lines 156-158. -/
def swapRows (rows : Nat → List Nat) (i j : Nat) : Nat → List Nat :=
  fun k => if k = i then rows j else if k = j then rows i else rows k

/-- Embeds the scanline-reorder loop of ScreenCaptureGDI::CaptureFrame
(ScreenCapGDI.cpp lines 151-162): starting at scanline y with fuel
iterations left, swap scanline y with scanline h-1-y and advance. -/
def flipGo (h : Nat) : Nat → (Nat → List Nat) → Nat → (Nat → List Nat)
  | 0, rows, _ => rows
  | fuel + 1, rows, y => flipGo h fuel (swapRows rows y (h - 1 - y)) (y + 1)

/-- The whole scanline-reorder pass: h/2 swap iterations starting at
scanline 0. -/
def flipScanlines (h : Nat) (rows : Nat → List Nat) : Nat → List Nat :=
  flipGo h (h / 2) rows 0

/-- Embeds ScreenCaptureGDI::CaptureFrame (ScreenCapGDI.cpp lines 136-165).
`blit` is the oracle for the DIB contents that the BitBlt call leaves in
the frame buffer (bottom-up scanlines); the BitBlt return value is not
inspected by the source.  After the copy the scanline order is corrected
in place. -/
def CaptureFrameGDI (s : GDIState) (blit : Nat → List Nat) : GDIState × Bool :=
  if s.hdcMem = false ∨ s.width = 0 then (s, false)
  else
    ({ s with dibBits := some (flipScanlines s.height blit) }, true)

/-- The capture mode enum of ScreenCap.h lines 51-56. -/
inductive ScreenCaptureMode where
  | Invalid : ScreenCaptureMode
  | GDI : ScreenCaptureMode
  | DX11 : ScreenCaptureMode
deriving DecidableEq

/-- Member state of a ScreenCapture facade object (ScreenCap.h lines
193-196): the mode and the optionally installed backend instances. -/
structure FacadeState where
  mode : ScreenCaptureMode
  capgdi : Option GDIState
  capdx11 : Option DX11State

/-- A freshly constructed ScreenCapture object. -/
def facadeInitState : FacadeState :=
  ⟨ScreenCaptureMode.Invalid, none, none⟩

/-- Embeds ScreenCapture::Shutdown (ScreenCap.h lines 96-107): deletes
both backends and resets the mode. -/
def FacadeShutdown (_s : FacadeState) : FacadeState :=
  ⟨ScreenCaptureMode.Invalid, none, none⟩

/-- Embeds ScreenCapture::Startup (ScreenCap.h lines 71-90): shuts the
previous session down if a mode was set, records the new mode, constructs
the requested backend and returns that backend's Startup result; for an
invalid mode installs nothing and returns false. -/
def FacadeStartup (s : FacadeState) (mode : ScreenCaptureMode)
    (ge : GDIEnv) (deviceOk dupOk : Bool) : FacadeState × Bool :=
  let s1 := if s.mode ≠ ScreenCaptureMode.Invalid then FacadeShutdown s else s
  let s2 := { s1 with mode := mode }
  match mode with
  | ScreenCaptureMode.GDI =>
      let p := StartupGDI gdiInitState ge
      ({ s2 with capgdi := some p.1 }, p.2)
  | ScreenCaptureMode.DX11 =>
      let p := StartupDX11 dx11InitState deviceOk dupOk
      ({ s2 with capdx11 := some p.1 }, p.2)
  | ScreenCaptureMode.Invalid => (s2, false)

/-- Embeds ScreenCapture::CaptureFrame (ScreenCap.h lines 120-128):
dispatches to the GDI backend if installed, else to the DX11 backend if
installed, else returns false. -/
def FacadeCaptureFrame (s : FacadeState) (blit : Nat → List Nat)
    (de : DX11CapEnv) : FacadeState × Bool :=
  match s.capgdi with
  | some g =>
      let p := CaptureFrameGDI g blit
      ({ s with capgdi := some p.1 }, p.2)
  | none =>
      match s.capdx11 with
      | some d =>
          let r := CaptureFrameDX11 d de
          ({ s with capdx11 := some r.st }, r.ok)
      | none => (s, false)

/-- Embeds ScreenCapture::GetFrameWidth (ScreenCap.h lines 139-146). -/
def FacadeGetFrameWidth (s : FacadeState) : Nat :=
  match s.capgdi with
  | some g => GDIGetFrameWidth g
  | none =>
      match s.capdx11 with
      | some d => DX11GetFrameWidth d
      | none => 0

/-- Embeds ScreenCapture::GetFrameHeight (ScreenCap.h lines 147-154). -/
def FacadeGetFrameHeight (s : FacadeState) : Nat :=
  match s.capgdi with
  | some g => GDIGetFrameHeight g
  | none =>
      match s.capdx11 with
      | some d => DX11GetFrameHeight d
      | none => 0

/-- Embeds ScreenCapture::GetFrameDepth (ScreenCap.h lines 155-162). -/
def FacadeGetFrameDepth (s : FacadeState) : Nat :=
  match s.capgdi with
  | some g => GDIGetFrameDepth g
  | none =>
      match s.capdx11 with
      | some d => DX11GetFrameDepth d
      | none => 0

/-- Embeds ScreenCapture::GetFrameStride (ScreenCap.h lines 163-170). -/
def FacadeGetFrameStride (s : FacadeState) : Nat :=
  match s.capgdi with
  | some g => GDIGetFrameStride g
  | none =>
      match s.capdx11 with
      | some d => DX11GetFrameStride d
      | none => 0

/-- All four frame-metadata fields of a DX11 backend are zero. -/
def dx11MetaZero (s : DX11State) : Prop :=
  s.frameWidth = 0 ∧ s.frameHeight = 0 ∧ s.frameDepth = 0 ∧ s.frameStride = 0

/-- All four frame-metadata queries of the facade return zero. -/
def facadeMetaZero (s : FacadeState) : Prop :=
  FacadeGetFrameWidth s = 0 ∧ FacadeGetFrameHeight s = 0 ∧
  FacadeGetFrameDepth s = 0 ∧ FacadeGetFrameStride s = 0

/-- One swap pass characterised pointwise: after running the reorder loop
from scanline y with fuel iterations left, indices in the processed bottom
band or its mirrored top band hold the mirrored scanline, all others are
untouched. -/
lemma flipGo_spec (h : Nat) : ∀ (f y : Nat) (rows : Nat → List Nat) (k : Nat),
    y + f ≤ h / 2 →
    flipGo h f rows y k =
      if (y ≤ k ∧ k < y + f) ∨ (h - (y + f) ≤ k ∧ k < h - y)
      then rows (h - 1 - k) else rows k := by
  intro f
  induction f with
  | zero =>
      intro y rows k _
      rw [flipGo, if_neg]
      omega
  | succ f ih =>
      intro y rows k hle
      rw [flipGo, ih (y + 1) _ k (by omega)]
      simp only [swapRows]
      split_ifs <;>
        first
          | rfl
          | exact congrArg rows (by omega)

/-- The whole scanline-reorder pass reverses the rows: scanline i of the
result is scanline h-1-i of the input, for every i below h. -/
lemma flipScanlines_spec (h : Nat) (rows : Nat → List Nat) (i : Nat)
    (hi : i < h) : flipScanlines h rows i = rows (h - 1 - i) := by
  rw [flipScanlines, flipGo_spec h (h / 2) 0 rows i (by omega)]
  split_ifs with hc
  · rfl
  · exact congrArg rows (by omega)

/-- The OS-call counter of the retry loop moves forward and advances at
most fuel steps. -/
lemma acquireLoop_used_bounds (outs : Nat → AcquireOutcome) :
    ∀ (f : Nat) (b r : Bool) (u l : Nat),
      u ≤ (acquireLoop outs f b r u l).used ∧
      (acquireLoop outs f b r u l).used ≤ u + f := by
  intro f
  induction f with
  | zero => intro b r u l; simp [acquireLoop]
  | succ f ih =>
      intro b r u l
      cases houts : outs u with
      | zeroPresentTime =>
          have h2 := ih true false (u + 1) (l + 1)
          simp only [acquireLoop, houts]
          omega
      | noResource =>
          have h2 := ih true false (u + 1) (l + 1)
          simp only [acquireLoop, houts]
          omega
      | failed => simp [acquireLoop, houts]
      | gotResource => simp [acquireLoop, houts]

/-- Every attempt before the loop's last one was one of the two retry
outcomes: any other outcome ends the loop at once. -/
lemma acquireLoop_retry_prefix (outs : Nat → AcquireOutcome) :
    ∀ (f : Nat) (b r : Bool) (u l j : Nat),
      u ≤ j → j + 1 < (acquireLoop outs f b r u l).used →
      isRetryOutcome (outs j) = true := by
  intro f
  induction f with
  | zero =>
      intro b r u l j hj hlt
      simp only [acquireLoop] at hlt
      omega
  | succ f ih =>
      intro b r u l j hj hlt
      cases houts : outs u with
      | zeroPresentTime =>
          simp only [acquireLoop, houts] at hlt
          rcases Nat.eq_or_lt_of_le hj with heq | hgt
          · rw [← heq, houts]; rfl
          · exact ih true false (u + 1) (l + 1) j hgt hlt
      | noResource =>
          simp only [acquireLoop, houts] at hlt
          rcases Nat.eq_or_lt_of_le hj with heq | hgt
          · rw [← heq, houts]; rfl
          · exact ih true false (u + 1) (l + 1) j hgt hlt
      | failed =>
          simp only [acquireLoop, houts] at hlt
          omega
      | gotResource =>
          simp only [acquireLoop, houts] at hlt
          omega

/-- When attempts u, ..., u+k-1 are retry outcomes and attempt u+k reports
a FAILED hr, the loop stops right there with a failed hr, no resource,
k+1 attempts made and k in-loop releases. -/
lemma acquireLoop_abort (outs : Nat → AcquireOutcome) :
    ∀ (k f u l : Nat) (b : Bool), k < f →
      (∀ j, j < k → isRetryOutcome (outs (u + j)) = true) →
      outs (u + k) = AcquireOutcome.failed →
      acquireLoop outs f b false u l = ⟨false, false, u + k + 1, l + k⟩ := by
  intro k
  induction k with
  | zero =>
      intro f u l b hf _ hout
      obtain ⟨f1, rfl⟩ : ∃ f1, f = f1 + 1 := ⟨f - 1, by omega⟩
      rw [Nat.add_zero] at hout
      simp [acquireLoop, hout]
  | succ k ih =>
      intro f u l b hf hretry hout
      obtain ⟨f1, rfl⟩ : ∃ f1, f = f1 + 1 := ⟨f - 1, by omega⟩
      have h0 : isRetryOutcome (outs u) = true := by
        have := hretry 0 (by omega)
        simpa using this
      have hstep : ∀ j, j < k → isRetryOutcome (outs (u + 1 + j)) = true := by
        intro j hj
        have := hretry (j + 1) (by omega)
        rw [show u + 1 + j = u + (j + 1) from by omega]
        exact this
      have hout1 : outs (u + 1 + k) = AcquireOutcome.failed := by
        rw [show u + 1 + k = u + (k + 1) from by omega]
        exact hout
      cases houts : outs u with
      | zeroPresentTime =>
          simp only [acquireLoop, houts]
          rw [ih f1 (u + 1) (l + 1) true (by omega) hstep hout1]
          have h3 : u + 1 + k + 1 = u + (k + 1) + 1 := by omega
          have h4 : l + 1 + k = l + (k + 1) := by omega
          rw [h3, h4]
      | noResource =>
          simp only [acquireLoop, houts]
          rw [ih f1 (u + 1) (l + 1) true (by omega) hstep hout1]
          have h3 : u + 1 + k + 1 = u + (k + 1) + 1 := by omega
          have h4 : l + 1 + k = l + (k + 1) := by omega
          rw [h3, h4]
      | failed => rw [houts] at h0; exact absurd h0 (by simp [isRetryOutcome])
      | gotResource => rw [houts] at h0; exact absurd h0 (by simp [isRetryOutcome])

/-- AcquireNextFrame never makes more than 4 OS acquisition attempts. -/
lemma acquireNextFrame_attempts_le (outs : Nat → AcquireOutcome) (qiOk : Bool) :
    (AcquireNextFrameDX11 outs qiOk).attempts ≤ 4 := by
  have h := (acquireLoop_used_bounds outs 4 false false 0 0).2
  simp only [AcquireNextFrameDX11]
  split_ifs <;> (dsimp only []; omega)

/-- Every attempt before AcquireNextFrame's last one was a retry outcome. -/
lemma acquireNextFrame_retry_prefix (outs : Nat → AcquireOutcome) (qiOk : Bool)
    (j : Nat) (hj : j + 1 < (AcquireNextFrameDX11 outs qiOk).attempts) :
    isRetryOutcome (outs j) = true := by
  apply acquireLoop_retry_prefix outs 4 false false 0 0 j (Nat.zero_le j)
  revert hj
  simp only [AcquireNextFrameDX11]
  split_ifs <;> exact fun hj => hj

/-- A FAILED hr on attempt k, after k retry outcomes, makes
AcquireNextFrame return failure after exactly k+1 attempts. -/
lemma acquireNextFrame_abort (outs : Nat → AcquireOutcome) (qiOk : Bool)
    (k : Nat) (hk : k < 4)
    (hpre : ∀ j, j < k → isRetryOutcome (outs j) = true)
    (hfail : outs k = AcquireOutcome.failed) :
    AcquireNextFrameDX11 outs qiOk = ⟨false, false, k + 1, k⟩ := by
  have h := acquireLoop_abort outs k 4 0 0 false hk
    (by intro j hj; simpa using hpre j hj) (by simpa using hfail)
  simp only [AcquireNextFrameDX11, h]
  simp

/-- The attempt count that CaptureFrame reports on an initialized session is
the one of its single AcquireNextFrame call. -/
lemma captureFrameDX11_attempts (s : DX11State) (e : DX11CapEnv)
    (hd : s.device = true) (hc : s.deviceContext = true)
    (ho : s.outputDuplication = true) :
    (CaptureFrameDX11 s e).attempts =
      (AcquireNextFrameDX11 e.outs e.qiOk).attempts := by
  simp only [CaptureFrameDX11]
  rw [if_neg (by simp [hd, hc, ho])]
  split_ifs <;> rfl

/-- A failed CaptureFrame call leaves the frame metadata zeroed: the only
assignment to the metadata after the clearing at entry happens on the
successful Map path, which returns true. -/
lemma captureFrameDX11_fail_meta_zero (s : DX11State) (e : DX11CapEnv)
    (hok : (CaptureFrameDX11 s e).ok = false) :
    dx11MetaZero (CaptureFrameDX11 s e).st := by
  simp only [CaptureFrameDX11, CopyStagingTextureToMemory] at hok ⊢
  split_ifs at hok ⊢ <;> simp_all [dx11MetaZero]

/-- A DX11 session after a fully successful Startup: device, context and
duplication session held, no staging texture, stale nonzero metadata. -/
def dx11ReadyState : DX11State :=
  ⟨true, true, false, true, [9], 7, 7, 7, 7⟩

/-- Capture-call environment: first acquisition attempt yields a composited
frame with a resource, QueryInterface succeeds, the duplication format is
DXGI_FORMAT_B8G8R8A8_UNORM, staging creation and Map succeed, 4x4 texture
with row pitch 16, all mapped bytes 5. -/
def dx11EnvGood : DX11CapEnv :=
  ⟨fun _ => AcquireOutcome.gotResource, true, 87, true, true, 4, 4, 16, fun _ => 5⟩

/-- Same as dx11EnvGood but the duplication session reports
DXGI_FORMAT_R8G8B8A8_UNORM (numeric value 28), not a BGRA/BGRX variant. -/
def dx11EnvMismatch : DX11CapEnv :=
  { dx11EnvGood with descFormat := 28 }

/-- Same as dx11EnvGood but CreateTexture2D for the staging texture fails. -/
def dx11EnvStagingFail : DX11CapEnv :=
  { dx11EnvGood with stagingOk := false }

/-- Same as dx11EnvGood but Map on the staging texture fails. -/
def dx11EnvMapFail : DX11CapEnv :=
  { dx11EnvGood with mapOk := false }

/-- Same as dx11EnvGood but every acquisition attempt times out. -/
def dx11EnvAllFailed : DX11CapEnv :=
  { dx11EnvGood with outs := fun _ => AcquireOutcome.failed }

/-- C1: on the format-mismatch failure path, CaptureFrame returns after a
successful acquisition without calling ReleaseFrame on the duplication
session (ScreenCapDX11.cpp lines 140-144), although the staging-failure,
copy-failure and success paths all do release; this contradicts the
release-on-every-path requirement. -/
theorem dx11_format_mismatch_skips_releaseFrame :
    (CaptureFrameDX11 dx11ReadyState dx11EnvMismatch).acquiredFrame = true ∧
    (CaptureFrameDX11 dx11ReadyState dx11EnvMismatch).ok = false ∧
    (CaptureFrameDX11 dx11ReadyState dx11EnvMismatch).releaseAfterAcquire = false ∧
    (CaptureFrameDX11 dx11ReadyState dx11EnvStagingFail).releaseAfterAcquire = true ∧
    (CaptureFrameDX11 dx11ReadyState dx11EnvMapFail).releaseAfterAcquire = true ∧
    (CaptureFrameDX11 dx11ReadyState dx11EnvGood).ok = true ∧
    (CaptureFrameDX11 dx11ReadyState dx11EnvGood).releaseAfterAcquire = true := by
  decide

/-- C6: whenever the DX11 CaptureFrame call returns false — uninitialized
session, acquisition failure, format mismatch, staging-texture failure or
copy failure — the frame metadata reported by the accessors is all zero. -/
theorem dx11_captureFrame_failure_clears_metadata :
    ∀ (s : DX11State) (e : DX11CapEnv),
      (CaptureFrameDX11 s e).ok = false →
      DX11GetFrameWidth (CaptureFrameDX11 s e).st = 0 ∧
      DX11GetFrameHeight (CaptureFrameDX11 s e).st = 0 ∧
      DX11GetFrameStride (CaptureFrameDX11 s e).st = 0 ∧
      DX11GetFrameDepth (CaptureFrameDX11 s e).st = 0 := by
  intro s e hok
  have h := captureFrameDX11_fail_meta_zero s e hok
  exact ⟨h.1, h.2.1, h.2.2.2, h.2.2.1⟩

/-- Witness for C6 at a concrete input: an uninitialized session fails and
reports zero width. -/
theorem dx11_captureFrame_failure_clears_metadata_witness :
    (CaptureFrameDX11 dx11InitState dx11EnvGood).ok = false ∧
    DX11GetFrameWidth (CaptureFrameDX11 dx11InitState dx11EnvGood).st = 0 := by
  have hok : (CaptureFrameDX11 dx11InitState dx11EnvGood).ok = false := by decide
  exact ⟨hok, (dx11_captureFrame_failure_clears_metadata dx11InitState dx11EnvGood hok).1⟩

/-- C7: an initialized DX11 CaptureFrame call makes at most 4 acquisition
attempts; every attempt before the last was one of the two retry outcomes
(zero present-time marker, or no backing surface); and a timed-out or
driver-error outcome, reached after only retry outcomes, ends the whole
call at once with failure, the loop having released the partial frame once
per retried attempt. -/
theorem dx11_captureFrame_retry_bound :
    ∀ (s : DX11State) (e : DX11CapEnv),
      s.device = true → s.deviceContext = true → s.outputDuplication = true →
      (CaptureFrameDX11 s e).attempts ≤ 4 ∧
      (∀ j, j + 1 < (CaptureFrameDX11 s e).attempts →
        isRetryOutcome (e.outs j) = true) ∧
      (∀ k, k < 4 → (∀ j, j < k → isRetryOutcome (e.outs j) = true) →
        e.outs k = AcquireOutcome.failed →
        (CaptureFrameDX11 s e).ok = false ∧
        (CaptureFrameDX11 s e).attempts = k + 1 ∧
        (AcquireNextFrameDX11 e.outs e.qiOk).relsInLoop = k) := by
  intro s e hd hc ho
  have hatt := captureFrameDX11_attempts s e hd hc ho
  refine ⟨?_, ?_, ?_⟩
  · rw [hatt]; exact acquireNextFrame_attempts_le e.outs e.qiOk
  · intro j hj
    rw [hatt] at hj
    exact acquireNextFrame_retry_prefix e.outs e.qiOk j hj
  · intro k hk hpre hfail
    have habort := acquireNextFrame_abort e.outs e.qiOk k hk hpre hfail
    refine ⟨?_, ?_, ?_⟩
    · simp only [CaptureFrameDX11]
      rw [if_neg (by simp [hd, hc, ho]), habort]
      simp
    · rw [hatt, habort]
    · rw [habort]

/-- Witness for C7 at a concrete input: with a first-attempt timeout the
call fails after exactly one attempt. -/
theorem dx11_captureFrame_retry_bound_witness :
    (CaptureFrameDX11 dx11ReadyState dx11EnvAllFailed).ok = false ∧
    (CaptureFrameDX11 dx11ReadyState dx11EnvAllFailed).attempts = 1 := by
  have h := (dx11_captureFrame_retry_bound dx11ReadyState dx11EnvAllFailed rfl
    rfl rfl).2.2 0 (by omega) (fun j hj => absurd hj (Nat.not_lt_zero j)) rfl
  exact ⟨h.1, h.2.1⟩

/-- C8: after a successful acquisition, CaptureFrame proceeds to the
staging-copy step exactly when the duplication format is 32-bit BGRA/BGRX;
on any other format it returns false with the frame buffer untouched (no
conversion); and IsFormat32bit accepts exactly the six listed DXGI format
variants. -/
theorem dx11_captureFrame_format_gate :
    ∀ (s : DX11State) (e : DX11CapEnv),
      (CaptureFrameDX11 s e).acquiredFrame = true →
      (IsFormat32bit e.descFormat = true ↔
        (CaptureFrameDX11 s e).stagingAttempted = true) ∧
      (IsFormat32bit e.descFormat = false →
        (CaptureFrameDX11 s e).ok = false ∧
        (CaptureFrameDX11 s e).st.frameBuffer = s.frameBuffer) ∧
      (∀ fmt, IsFormat32bit fmt = true ↔
        (fmt = DXGI_FORMAT_B8G8R8A8_UNORM ∨ fmt = DXGI_FORMAT_B8G8R8X8_UNORM ∨
         fmt = DXGI_FORMAT_B8G8R8A8_TYPELESS ∨
         fmt = DXGI_FORMAT_B8G8R8A8_UNORM_SRGB ∨
         fmt = DXGI_FORMAT_B8G8R8X8_TYPELESS ∨
         fmt = DXGI_FORMAT_B8G8R8X8_UNORM_SRGB)) := by
  intro s e hacq
  refine ⟨?_, ?_, ?_⟩
  · revert hacq
    simp only [CaptureFrameDX11, CopyStagingTextureToMemory]
    split_ifs <;> simp_all
  · intro hfmt
    revert hacq
    simp only [CaptureFrameDX11, CopyStagingTextureToMemory]
    split_ifs <;> simp_all
  · intro fmt
    simp only [IsFormat32bit, DXGI_FORMAT_B8G8R8A8_UNORM,
      DXGI_FORMAT_B8G8R8X8_UNORM, DXGI_FORMAT_B8G8R8A8_TYPELESS,
      DXGI_FORMAT_B8G8R8A8_UNORM_SRGB, DXGI_FORMAT_B8G8R8X8_TYPELESS,
      DXGI_FORMAT_B8G8R8X8_UNORM_SRGB]
    split_ifs with hc
    · constructor
      · intro h; exact absurd h (by simp)
      · intro h; omega
    · constructor
      · intro _; omega
      · intro _; rfl

/-- Witness for C8 at a concrete input: with a BGRA format the staging-copy
step is reached. -/
theorem dx11_captureFrame_format_gate_witness :
    (CaptureFrameDX11 dx11ReadyState dx11EnvGood).acquiredFrame = true ∧
    (CaptureFrameDX11 dx11ReadyState dx11EnvGood).stagingAttempted = true := by
  have hacq : (CaptureFrameDX11 dx11ReadyState dx11EnvGood).acquiredFrame = true := by
    decide
  exact ⟨hacq,
    (dx11_captureFrame_format_gate dx11ReadyState dx11EnvGood hacq).1.mp (by decide)⟩

/-- True when the state holds the given COM handle. -/
def dx11Holds (s : DX11State) : DXHandle → Bool
  | DXHandle.staging => s.stagingTexture
  | DXHandle.duplication => s.outputDuplication
  | DXHandle.device => s.device
  | DXHandle.context => s.deviceContext

/-- A DX11 session holding all four COM handles. -/
def dx11AllHandles : DX11State :=
  ⟨true, true, true, true, [3], 1, 2, 3, 4⟩

/-- C9 counterexample: on a state holding all four handles, Shutdown
releases the device before the device context (ScreenCapDX11.cpp lines
95-105), not the context before the device as claimed. -/
theorem dx11_shutdown_release_order_counterexample :
    (ShutdownDX11 dx11AllHandles).2 =
      [DXHandle.staging, DXHandle.duplication, DXHandle.device,
       DXHandle.context] ∧
    (ShutdownDX11 dx11AllHandles).2 ≠
      [DXHandle.staging, DXHandle.duplication, DXHandle.context,
       DXHandle.device] := by
  decide

/-- C9 as amended: Shutdown releases the held handles in the order staging
texture, duplication session, device, device context; it clears the pixel
buffer; and it is idempotent — a second Shutdown, or a Shutdown on a fresh
object, releases nothing and leaves the same cleared state. -/
theorem dx11_shutdown_order_and_idempotent :
    ∀ s : DX11State,
      (ShutdownDX11 s).2 =
        [DXHandle.staging, DXHandle.duplication, DXHandle.device,
         DXHandle.context].filter (dx11Holds s) ∧
      (ShutdownDX11 s).1.frameBuffer = [] ∧
      ShutdownDX11 (ShutdownDX11 s).1 = ((ShutdownDX11 s).1, []) ∧
      ShutdownDX11 dx11InitState = (dx11InitState, []) := by
  intro s
  obtain ⟨d, dc, st, od, fb, w, h, dp, sr⟩ := s
  cases d <;> cases dc <;> cases st <;> cases od <;>
    simp [ShutdownDX11, dx11Holds, dx11InitState]

/-- A single 1920x1080 monitor on which DC and DIB creation succeed. -/
def gdiEnvOk : GDIEnv := ⟨1920, 1080, 1, 0, 0, true, true⟩

/-- A single 1920x1080 monitor on which CreateCompatibleDC fails. -/
def gdiEnvDcFail : GDIEnv := ⟨1920, 1080, 1, 0, 0, false, true⟩

/-- A single 1920x1080 monitor on which CreateDIBSection fails. -/
def gdiEnvDibFail : GDIEnv := ⟨1920, 1080, 1, 0, 0, true, false⟩

/-- C2: the buffer/metadata consistency invariant fails in reachable GDI
states.  After Startup then Shutdown (which does not reset m_dibBits,
ScreenCapGDI.cpp lines 124-127) the width is 0 while the pixel-buffer
pointer is still non-null; after a Startup that fails at CreateCompatibleDC
(lines 72-76, after the width was already assigned at lines 63-69) the
width is 1920 while the pixel-buffer pointer is null. -/
theorem gdi_buffer_metadata_inconsistency :
    (StartupGDI gdiInitState gdiEnvOk).2 = true ∧
    GDIGetFrameWidth (ShutdownGDI (StartupGDI gdiInitState gdiEnvOk).1) = 0 ∧
    (GDIGetFrameBuffer
      (ShutdownGDI (StartupGDI gdiInitState gdiEnvOk).1)).isSome = true ∧
    (StartupGDI gdiInitState gdiEnvDcFail).2 = false ∧
    GDIGetFrameWidth (StartupGDI gdiInitState gdiEnvDcFail).1 = 1920 ∧
    (GDIGetFrameBuffer (StartupGDI gdiInitState gdiEnvDcFail).1).isNone = true ∧
    (StartupGDI gdiInitState gdiEnvDibFail).2 = false ∧
    GDIGetFrameWidth (StartupGDI gdiInitState gdiEnvDibFail).1 = 1920 ∧
    (GDIGetFrameBuffer (StartupGDI gdiInitState gdiEnvDibFail).1).isNone = true := by
  decide

/-- C5 counterexample: a successful GDI Startup publishes the screen
dimensions through all four metadata accessors before any CaptureFrame
call, so they are not all zero while no frame has been captured. -/
theorem gdi_startup_publishes_metadata_before_capture :
    (StartupGDI gdiInitState gdiEnvOk).2 = true ∧
    GDIGetFrameWidth (StartupGDI gdiInitState gdiEnvOk).1 = 1920 ∧
    GDIGetFrameHeight (StartupGDI gdiInitState gdiEnvOk).1 = 1080 ∧
    GDIGetFrameDepth (StartupGDI gdiInitState gdiEnvOk).1 = 32 ∧
    GDIGetFrameStride (StartupGDI gdiInitState gdiEnvOk).1 = 7680 ∧
    (1920 : Nat) ≠ 0 := by
  decide

/-- C5 as amended: for the DX11 backend and for the facade, the metadata
accessors return all zero while no frame has been captured in the current
session — Startup zeroes the metadata, every failed CaptureFrame leaves it
zeroed, the facade reports zeros with no backend installed, and the facade
reports the DX11 backend's zeros when that backend is installed — whereas
the GDI backend already publishes the screen dimensions on Startup. -/
theorem metadata_zero_before_first_capture :
    (∀ (s : DX11State) (dOk uOk : Bool),
      dx11MetaZero (StartupDX11 s dOk uOk).1) ∧
    (∀ (s : DX11State) (e : DX11CapEnv),
      (CaptureFrameDX11 s e).ok = false →
      dx11MetaZero (CaptureFrameDX11 s e).st) ∧
    (∀ s : FacadeState, s.capgdi = none → s.capdx11 = none →
      facadeMetaZero s) ∧
    (∀ (s : FacadeState) (d : DX11State), s.capgdi = none →
      s.capdx11 = some d → dx11MetaZero d → facadeMetaZero s) := by
  refine ⟨?_, ?_, ?_, ?_⟩
  · intro s dOk uOk
    simp only [StartupDX11]
    split_ifs <;> simp [dx11MetaZero]
  · exact captureFrameDX11_fail_meta_zero
  · intro s h1 h2
    simp [facadeMetaZero, FacadeGetFrameWidth, FacadeGetFrameHeight,
      FacadeGetFrameDepth, FacadeGetFrameStride, h1, h2]
  · intro s d h1 h2 hz
    simp only [facadeMetaZero, FacadeGetFrameWidth, FacadeGetFrameHeight,
      FacadeGetFrameDepth, FacadeGetFrameStride, h1, h2]
    exact ⟨hz.1, hz.2.1, hz.2.2.1, hz.2.2.2⟩

/-- Witness for the amended C5 at concrete inputs: Startup from a ready
state zeroes the metadata, and the fresh facade reports zeros. -/
theorem metadata_zero_before_first_capture_witness :
    dx11MetaZero (StartupDX11 dx11ReadyState true true).1 ∧
    facadeMetaZero facadeInitState := by
  exact ⟨metadata_zero_before_first_capture.1 dx11ReadyState true true,
    metadata_zero_before_first_capture.2.2.1 facadeInitState rfl rfl⟩

/-- C4: on a started GDI session, CaptureFrame succeeds and leaves scanline
i of the pixel buffer equal to scanline height-1-i of the bottom-up image
the blit produced, for every row of the frame. -/
theorem gdi_captureFrame_flips_scanlines :
    ∀ (s : GDIState) (blit : Nat → List Nat),
      s.hdcMem = true → s.width ≠ 0 →
      (CaptureFrameGDI s blit).2 = true ∧
      ∀ i, i < s.height →
        ((CaptureFrameGDI s blit).1.dibBits.getD (fun _ => [])) i =
          blit (s.height - 1 - i) := by
  intro s blit hh hw
  have hguard : ¬(s.hdcMem = false ∨ s.width = 0) := by simp [hh, hw]
  simp only [CaptureFrameGDI, if_neg hguard]
  refine ⟨by trivial, ?_⟩
  intro i hi
  simp only [Option.getD_some]
  exact flipScanlines_spec s.height blit i hi

/-- A started GDI session with a 3-scanline frame. -/
def gdiStartedState : GDIState :=
  ⟨1, 3, 32, 4, true, true, true, some fun _ => []⟩

/-- A blitted image whose scanline k is the one-byte row k. -/
def blitRows : Nat → List Nat := fun k => [k]

/-- Witness for C4 at a concrete input: with 3 scanlines, row 0 of the
result is blitted row 2. -/
theorem gdi_captureFrame_flips_scanlines_witness :
    (CaptureFrameGDI gdiStartedState blitRows).2 = true ∧
    ((CaptureFrameGDI gdiStartedState blitRows).1.dibBits.getD
      (fun _ => [])) 0 = [2] := by
  have h := gdi_captureFrame_flips_scanlines gdiStartedState blitRows rfl
    (by decide)
  refine ⟨h.1, ?_⟩
  rw [h.2 0 (by decide)]
  rfl

/-- C10: the GDI CaptureFrame return value does not depend on the blitted
image at all (the BitBlt result is never checked), and it is false exactly
when the session is not started — memory DC absent or width zero. -/
theorem gdi_captureFrame_ignores_blit_result :
    ∀ (s : GDIState) (b1 b2 : Nat → List Nat),
      (CaptureFrameGDI s b1).2 = (CaptureFrameGDI s b2).2 ∧
      ((CaptureFrameGDI s b1).2 = false ↔
        (s.hdcMem = false ∨ s.width = 0)) := by
  intro s b1 b2
  simp only [CaptureFrameGDI]
  split_ifs with hc
  · simp [hc]
  · simp [hc]

/-- Witness for C10 at a concrete input: a never-started session fails. -/
theorem gdi_captureFrame_ignores_blit_result_witness :
    (CaptureFrameGDI gdiInitState blitRows).2 = false := by
  exact (gdi_captureFrame_ignores_blit_result gdiInitState blitRows
    blitRows).2.mpr (Or.inl rfl)

/-- Both failure paths of the GDI Startup leave the memory-DC handle null:
the first never obtained it, the second deletes it. -/
lemma startupGDI_fail_no_dc (s0 : GDIState) (e : GDIEnv)
    (hf : (StartupGDI s0 e).2 = false) :
    (StartupGDI s0 e).1.hdcMem = false := by
  cases hdc : e.dcOk with
  | false => simp [StartupGDI, hdc]
  | true =>
      cases hdib : e.dibOk with
      | false => simp [StartupGDI, hdc, hdib]
      | true => simp [StartupGDI, hdc, hdib] at hf

/-- The DX11 Startup always zeroes the frame metadata at entry. -/
lemma startupDX11_meta_zero (s : DX11State) (dOk uOk : Bool) :
    dx11MetaZero (StartupDX11 s dOk uOk).1 := by
  simp only [StartupDX11]
  split_ifs <;> simp [dx11MetaZero]

/-- A CaptureFrame call on a DX11 backend whose Startup from a fresh object
failed returns false: the not-initialized guard fires. -/
lemma startupDX11_init_fail_capture (dOk uOk : Bool) (de : DX11CapEnv)
    (hf : (StartupDX11 dx11InitState dOk uOk).2 = false) :
    (CaptureFrameDX11 (StartupDX11 dx11InitState dOk uOk).1 de).ok = false := by
  cases dOk <;> cases uOk <;>
    simp_all [StartupDX11, CaptureFrameDX11, dx11InitState]

/-- The facade metadata queries report the DX11 backend's metadata when
only that backend is installed. -/
lemma facadeMetaZero_of_dx11 (s : FacadeState) (d : DX11State)
    (h1 : s.capgdi = none) (h2 : s.capdx11 = some d)
    (hz : dx11MetaZero d) : facadeMetaZero s := by
  simp only [facadeMetaZero, FacadeGetFrameWidth, FacadeGetFrameHeight,
    FacadeGetFrameDepth, FacadeGetFrameStride, h1, h2]
  exact ⟨hz.1, hz.2.1, hz.2.2.1, hz.2.2.2⟩

/-- C3 counterexample: when the GDI backend's Startup fails inside the
facade (here at CreateCompatibleDC), ScreenCapture::Startup returns false
but the newly constructed backend instance stays installed, and the
metadata queries dispatch to it, reporting the screen width 1920 instead
of the no-backend default 0. -/
theorem facade_failed_startup_leaves_backend_installed :
    (FacadeStartup facadeInitState ScreenCaptureMode.GDI gdiEnvDcFail
      true true).2 = false ∧
    ((FacadeStartup facadeInitState ScreenCaptureMode.GDI gdiEnvDcFail
      true true).1.capgdi).isSome = true ∧
    FacadeGetFrameWidth (FacadeStartup facadeInitState ScreenCaptureMode.GDI
      gdiEnvDcFail true true).1 = 1920 ∧
    (FacadeStartup facadeInitState ScreenCaptureMode.GDI gdiEnvDcFail
      true true).1.mode = ScreenCaptureMode.GDI := by
  decide

/-- C3 as amended: when ScreenCapture::Startup(mode) returns false,
subsequent CaptureFrame calls still return false; with mode Invalid no
backend is installed; and with mode DX11 the metadata queries all report
zero — but for the GDI and DX11 modes the constructed backend instance
itself remains installed rather than the session reverting to the
no-backend state. -/
theorem facade_failed_startup_behavior :
    ∀ (s : FacadeState) (mode : ScreenCaptureMode) (ge : GDIEnv)
      (dOk uOk : Bool) (blit : Nat → List Nat) (de : DX11CapEnv),
      (s.mode = ScreenCaptureMode.Invalid →
        s.capgdi = none ∧ s.capdx11 = none) →
      (FacadeStartup s mode ge dOk uOk).2 = false →
      (FacadeCaptureFrame (FacadeStartup s mode ge dOk uOk).1 blit de).2
        = false ∧
      (mode = ScreenCaptureMode.Invalid →
        (FacadeStartup s mode ge dOk uOk).1.capgdi = none ∧
        (FacadeStartup s mode ge dOk uOk).1.capdx11 = none) ∧
      (mode = ScreenCaptureMode.DX11 →
        facadeMetaZero (FacadeStartup s mode ge dOk uOk).1) := by
  intro s mode ge dOk uOk blit de hinv hf
  cases mode with
  | GDI =>
      have hg : (FacadeStartup s ScreenCaptureMode.GDI ge dOk uOk).1.capgdi
          = some (StartupGDI gdiInitState ge).1 := by
        simp [FacadeStartup]
      have hf2 : (StartupGDI gdiInitState ge).2 = false := by
        simpa [FacadeStartup] using hf
      have hdc := startupGDI_fail_no_dc gdiInitState ge hf2
      refine ⟨?_, ?_, ?_⟩
      · simp only [FacadeCaptureFrame, hg]
        simp [CaptureFrameGDI, hdc]
      · intro h; exact ScreenCaptureMode.noConfusion h
      · intro h; exact ScreenCaptureMode.noConfusion h
  | DX11 =>
      have hd : (FacadeStartup s ScreenCaptureMode.DX11 ge dOk uOk).1.capdx11
          = some (StartupDX11 dx11InitState dOk uOk).1 := by
        simp [FacadeStartup]
      have hgnone :
          (FacadeStartup s ScreenCaptureMode.DX11 ge dOk uOk).1.capgdi
            = none := by
        simp only [FacadeStartup]
        split_ifs with h
        · rfl
        · exact (hinv (not_not.mp h)).1
      have hf2 : (StartupDX11 dx11InitState dOk uOk).2 = false := by
        simpa [FacadeStartup] using hf
      refine ⟨?_, ?_, ?_⟩
      · simp only [FacadeCaptureFrame, hgnone, hd]
        exact startupDX11_init_fail_capture dOk uOk de hf2
      · intro h; exact ScreenCaptureMode.noConfusion h
      · intro _
        exact facadeMetaZero_of_dx11 _ _ hgnone hd
          (startupDX11_meta_zero dx11InitState dOk uOk)
  | Invalid =>
      have hgnone :
          (FacadeStartup s ScreenCaptureMode.Invalid ge dOk uOk).1.capgdi
            = none := by
        simp only [FacadeStartup]
        split_ifs with h
        · rfl
        · exact (hinv (not_not.mp h)).1
      have hdnone :
          (FacadeStartup s ScreenCaptureMode.Invalid ge dOk uOk).1.capdx11
            = none := by
        simp only [FacadeStartup]
        split_ifs with h
        · rfl
        · exact (hinv (not_not.mp h)).2
      refine ⟨?_, ?_, ?_⟩
      · simp [FacadeCaptureFrame, hgnone, hdnone]
      · intro _; exact ⟨hgnone, hdnone⟩
      · intro h; exact ScreenCaptureMode.noConfusion h

/-- Witness for the amended C3 at a concrete input: after the facade's GDI
Startup fails at CreateCompatibleDC, CaptureFrame still returns false. -/
theorem facade_failed_startup_behavior_witness :
    (FacadeCaptureFrame (FacadeStartup facadeInitState ScreenCaptureMode.GDI
      gdiEnvDcFail true true).1 blitRows dx11EnvGood).2 = false := by
  exact (facade_failed_startup_behavior facadeInitState ScreenCaptureMode.GDI
    gdiEnvDcFail true true blitRows dx11EnvGood (fun _ => ⟨rfl, rfl⟩)
    (by decide)).1
